import Mathlib

/-!
Verification of the arcade-noe repository: variation generation engine
(apps/backend/src/variation.ts, apps/backend/src/index.ts) and the per-game
simulation loops (Snake, Breakout, Flappy) as implemented in the frontend
sources.  JS numbers are modeled as rationals, JS `undefined` from
out-of-range array reads as `Option`, and the external `seedrandom` library
as an explicit deterministic parameter (a pure function of the seed string,
per its contract).
-/

namespace Arcade

/-- A deterministic stream of pseudo-random outputs: `g n` is the value produced by
the n-th invocation of a seeded generator. -/
abbrev Rng := Nat → Rat

/-- The external JS runtime functions used by variation.ts.  `seedrandom` is the npm
PRNG: a pure function from a seed string to an output stream.  The string-conversion
functions model `Number.prototype.toString` and friends; all are deterministic. -/
structure JsRuntime where
  seedrandom : String → Rng
  ratToString : Rat → String
  natToStr36 : Nat → String
  fracToStr36 : Rat → String

/-- The seedrandom contract: every output lies in [0, 1). -/
def RngRange (rt : JsRuntime) : Prop :=
  ∀ s n, 0 ≤ rt.seedrandom s n ∧ rt.seedrandom s n < 1

/-- Ambient nondeterministic inputs read by variation.ts: `Date.now()` and
`Math.random()`. -/
structure JsEnv where
  dateNow : Nat
  mathRandom : Rat

/-- JS array indexing `arr[i]`: `undefined` (none) when the index is negative or out
of range. -/
def jsIndex (l : List α) (i : Int) : Option α :=
  if i < 0 then none else l.get? i.toNat

/-- JS String.prototype.toLowerCase, character by character. -/
def jsToLower (s : String) : String :=
  ⟨s.data.map Char.toLower⟩

/-- The `speedValues` array at variation.ts:119. -/
def snakeSpeedValues : List Rat := [50, 75, 100, 125, 150, 175, 200, 250, 300]

/-- The snake color enum options (variation.ts:75). -/
def snakeColorOptions : List String := ["green", "blue", "yellow", "purple", "orange"]

/-- The food color enum options (variation.ts:76). -/
def snakeFoodColorOptions : List String := ["red", "pink", "cyan", "magenta"]

/-- The snake variation record as assembled at variation.ts:123-128.  Array reads
that may be `undefined` are modeled with `Option`. -/
structure RawSnakeVariation where
  seed : String
  speed : Option Rat
  color : Option String
  foodColor : Option String
deriving DecidableEq

/-- The flappy variation record as assembled at variation.ts:144-148. -/
structure RawFlappyVariation where
  seed : String
  gap : Rat
  gravity : Rat
deriving DecidableEq

/-- zod SnakeVariationSchema (variation.ts:72-77): seed is a string, speed a number
in [50, 300], color and foodColor members of their enums. -/
def snakeSchemaCheck (v : RawSnakeVariation) : Bool :=
  (match v.speed with
   | some s => decide (50 ≤ s) && decide (s ≤ 300)
   | none => false) &&
  (match v.color with
   | some c => snakeColorOptions.contains c
   | none => false) &&
  (match v.foodColor with
   | some c => snakeFoodColorOptions.contains c
   | none => false)

/-- zod FlappyVariationSchema (variation.ts:81-85): nonempty seed, gap in [100, 200],
gravity in [0.1, 0.5]. -/
def flappySchemaCheck (v : RawFlappyVariation) : Bool :=
  decide (1 ≤ v.seed.length) &&
  decide (100 ≤ v.gap) && decide (v.gap ≤ 200) &&
  decide ((1 : Rat) / 10 ≤ v.gravity) && decide (v.gravity ≤ 1 / 2)

/-- Result of one call to generateVariation (variation.ts:100-185).  `thrown`
represents a raised JS exception; generateVariation itself never constructs it (it
reports failures by returning an error object via safeParse), but the HTTP route
handler distinguishes thrown exceptions (caught and turned into a 500) from
returned values (sent with a 200). -/
inductive GenResult where
  | snakeBundle (v : RawSnakeVariation)
  | flappyBundle (v : RawFlappyVariation)
  | errorResult (msg : String)
  | thrown (msg : String)
deriving DecidableEq

/-- parseFloat(x.toFixed(2)): rounding to two decimal places, ties away from zero. -/
def toFixed2 (q : Rat) : Rat :=
  if q < 0 then -((⌊-q * 100 + 1 / 2⌋ : Int) : Rat) / 100
  else ((⌊q * 100 + 1 / 2⌋ : Int) : Rat) / 100

/-- The snake arm of generateVariation (variation.ts:118-136): sample speed, color
and foodColor from their arrays by `Math.floor(rng() * length)`, validate with
safeParse, and on validation failure return an error object (not a throw). -/
def snakeVariationOf (rt : JsRuntime) (seedString : String) : GenResult :=
  let rng := rt.seedrandom seedString
  let v : RawSnakeVariation :=
    { seed := seedString
      speed := jsIndex snakeSpeedValues (Rat.floor (rng 0 * (snakeSpeedValues.length : Rat)))
      color := jsIndex snakeColorOptions (Rat.floor (rng 1 * (snakeColorOptions.length : Rat)))
      foodColor := jsIndex snakeFoodColorOptions
        (Rat.floor (rng 2 * (snakeFoodColorOptions.length : Rat))) }
  if snakeSchemaCheck v then .snakeBundle v
  else .errorResult "Failed to generate valid Snake variation."

/-- The flappy arm of generateVariation (variation.ts:137-156): gap is
`Math.floor(rng() * (200 - 100 + 1)) + 100`, gravity is
`parseFloat((rng() * (0.5 - 0.1) + 0.1).toFixed(2))`; validate with safeParse and
on validation failure return an error object (not a throw). -/
def flappyVariationOf (rt : JsRuntime) (seedString : String) : GenResult :=
  let rng := rt.seedrandom seedString
  let v : RawFlappyVariation :=
    { seed := seedString
      gap := ((Rat.floor (rng 0 * (200 - 100 + 1)) : Int) : Rat) + 100
      gravity := toFixed2 (rng 1 * (1 / 2 - 1 / 10) + 1 / 10) }
  if flappySchemaCheck v then .flappyBundle v
  else .errorResult "Failed to generate valid Flappy Bird variation."

/-- generateVariation (variation.ts:100-185).  For "flappy" the seed string is built
from `Date.now()` and `Math.random()` (the ambient environment); for every other id
it is derived from the game id alone through seedrandom.  Ids other than snake and
flappy reach the else arm at variation.ts:157-167 and return an `Unknown gameId`
error object (the breakout arm at variation.ts:168-184 sits after that catch-all
else and is unreachable). -/
def generateVariation (rt : JsRuntime) (env : JsEnv) (gameId : String) : GenResult :=
  let lower := jsToLower gameId
  let seedString :=
    if lower = "flappy" then rt.natToStr36 env.dateNow ++ rt.fracToStr36 env.mathRandom
    else rt.ratToString (rt.seedrandom gameId 0)
  if lower = "snake" then snakeVariationOf rt seedString
  else if lower = "flappy" then flappyVariationOf rt seedString
  else .errorResult ("Unknown gameId: " ++ gameId)

/-- HTTP response of the variation route: a status code and a JSON body.  The body
reuses GenResult: a bundle constructor is a VariationBundle body, `errorResult msg`
is the JSON object with a single error field holding msg. -/
structure HttpResponse where
  status : Nat
  body : GenResult
deriving DecidableEq

/-- GET /api/variation/:id handler (index.ts:25-38).  The JS falsy test `!id` is
true for the empty string.  Fastify replies 200 with whatever value the handler
returns, including an error object returned as an ordinary value; only a thrown
exception is caught and mapped to a 500. -/
def variationRoute (rt : JsRuntime) (env : JsEnv) (id : String) : HttpResponse :=
  if id = "" then { status := 400, body := .errorResult "Game ID is required" }
  else
    match generateVariation rt env id with
    | .thrown _ => { status := 500, body := .errorResult "Failed to generate variation" }
    | r => { status := 200, body := r }

/-- A sample deterministic runtime used to evaluate the embedding on concrete
inputs. -/
def demoRt : JsRuntime :=
  { seedrandom := fun _ _ => 1 / 2
    ratToString := fun _ => "0.5"
    natToStr36 := fun _ => "t"
    fracToStr36 := fun _ => "r" }

/-- A sample environment. -/
def demoEnv : JsEnv := { dateNow := 0, mathRandom := 0 }

/-- A runtime whose PRNG steps outside the [0, 1) contract, driving the snake branch
of generateVariation into its safeParse failure path (the array reads come back
undefined). -/
def badRt : JsRuntime := { demoRt with seedrandom := fun _ _ => 1 }

/-!  Snake simulation: src/unnamed/part_006, class SnakeGame.  -/

/-- An integer grid cell. -/
structure GridPos where
  x : Int
  y : Int
deriving DecidableEq

/-- A food item (part_006 interface Food). -/
structure SnakeFood where
  x : Int
  y : Int
  type : Nat
  value : Rat
deriving DecidableEq

/-- Per-instance settings of SnakeGame after applyVariations (part_006:93-129):
maxX and maxY are Math.floor(canvas.width / gridSize) and
Math.floor(canvas.height / gridSize) as recomputed inside update, wallBehavior is
variation.gameSpecific.wallBehavior, hasGhostMode the ghostMode modifier,
scoreMultiplier folds complexityBonus and doubleScore, maxFoods is
gameSpecific.foodTypes or 1, and maxLength is gameSpecific.maxLength or 999. -/
structure SnakeCfg where
  maxX : Int
  maxY : Int
  wallBehavior : String
  hasGhostMode : Bool
  scoreMultiplier : Rat
  maxFoods : Nat
  maxLength : Nat
deriving DecidableEq

/-- Mutable SnakeGame state advanced by update.  Cosmetic state (particles, sound
effects, screen shake) is omitted: it never feeds back into snake, foods,
direction, score, combo, the ghost timer or the running flag. -/
structure SnakeSim where
  snake : List GridPos
  foods : List SnakeFood
  direction : GridPos
  gameRunning : Bool
  score : Int
  combo : Nat
  ghostModeTimer : Nat
deriving DecidableEq

/-- The coarse lifecycle phase of spec section 4.3.  SnakeGame tracks it through its
gameRunning flag: gameOver() clears the flag and freezes the loop. -/
inductive Phase where
  | Loading
  | Ready
  | Running
  | GameOver
  | Won
deriving DecidableEq

/-- The phase SnakeGame is in: Running while the loop advances, GameOver once
gameOver() has cleared gameRunning. -/
def SnakeSim.phase (s : SnakeSim) : Phase :=
  if s.gameRunning then .Running else .GameOver

/-- Accumulator of the food-eating loop inside update (part_006:269-298). -/
structure FoodLoopSt where
  foods : List SnakeFood
  score : Int
  combo : Nat
  ghostModeTimer : Nat
  foodEaten : Bool
  genIdx : Nat
deriving DecidableEq

/-- One iteration of the food loop at index i of the current foods list: on a hit,
award floor(value * scoreMultiplier) points, bump the combo, splice the food out,
arm the ghost timer when the ghostMode modifier is active, and respawn one food
when below maxFoods.  `gen` abstracts generateFood (part_006:204-226), which draws
positions from Math.random; genIdx counts the generateFood calls made so far in
this update. -/
def foodLoopStep (cfg : SnakeCfg) (gen : Nat → SnakeFood) (head : GridPos) (i : Nat)
    (st : FoodLoopSt) : FoodLoopSt :=
  match st.foods.get? i with
  | none => st
  | some f =>
    if head.x = f.x ∧ head.y = f.y then
      let points := Rat.floor (f.value * cfg.scoreMultiplier)
      let foods1 := st.foods.eraseIdx i
      let ghost1 := if cfg.hasGhostMode then 30 else st.ghostModeTimer
      if foods1.length < cfg.maxFoods then
        { foods := foods1 ++ [gen st.genIdx], score := st.score + points,
          combo := st.combo + 1, ghostModeTimer := ghost1, foodEaten := true,
          genIdx := st.genIdx + 1 }
      else
        { foods := foods1, score := st.score + points, combo := st.combo + 1,
          ghostModeTimer := ghost1, foodEaten := true, genIdx := st.genIdx }
    else st

/-- The food loop visits indices i-1, i-2, ..., 0: the source iterates from
foods.length - 1 down to 0, so splices during the walk only shift indices already
visited, and respawned foods are appended past the walk. -/
def foodLoop (cfg : SnakeCfg) (gen : Nat → SnakeFood) (head : GridPos) :
    Nat → FoodLoopSt → FoodLoopSt
  | 0, st => st
  | i + 1, st => foodLoop cfg gen head i (foodLoopStep cfg gen head i st)

/-- The while loop at part_006:311-313: top the foods list up to maxFoods, one
generateFood call per missing item. -/
def fillFoods (gen : Nat → SnakeFood) (maxFoods genIdx : Nat)
    (foods : List SnakeFood) : List SnakeFood :=
  foods ++ (List.range (maxFoods - foods.length)).map (fun k => gen (genIdx + k))

/-- SnakeGame.update (part_006:228-324): tick the ghost timer, move the head one
cell along direction, wrap or kill at the walls (part_006:241-258), kill on self
collision unless the ghost timer is armed, unshift the head, run the food loop,
pop the tail when nothing was eaten, enforce maxLength, and top foods back up.
The empty-snake match arm is unreachable: initGame always builds three segments. -/
def snakeUpdate (cfg : SnakeCfg) (gen : Nat → SnakeFood) (s : SnakeSim) : SnakeSim :=
  if s.gameRunning = false then s else
  let timer0 := if cfg.hasGhostMode ∧ 0 < s.ghostModeTimer then s.ghostModeTimer - 1
                else s.ghostModeTimer
  match s.snake with
  | [] => { s with ghostModeTimer := timer0 }
  | h0 :: _ =>
    let hx := h0.x + s.direction.x
    let hy := h0.y + s.direction.y
    let afterWalls : Option GridPos :=
      if cfg.wallBehavior = "wrap" then
        let hx1 := if hx < 0 then cfg.maxX - 1 else hx
        let hx2 := if cfg.maxX ≤ hx1 then 0 else hx1
        let hy1 := if hy < 0 then cfg.maxY - 1 else hy
        let hy2 := if cfg.maxY ≤ hy1 then 0 else hy1
        some { x := hx2, y := hy2 }
      else if hx < 0 ∨ cfg.maxX ≤ hx ∨ hy < 0 ∨ cfg.maxY ≤ hy then none
      else some { x := hx, y := hy }
    match afterWalls with
    | none => { s with gameRunning := false, ghostModeTimer := timer0 }
    | some head =>
      if timer0 = 0 ∧ s.snake.any (fun seg => seg.x == head.x && seg.y == head.y) then
        { s with gameRunning := false, ghostModeTimer := timer0 }
      else
        let snake1 := head :: s.snake
        let st1 := foodLoop cfg gen head s.foods.length
          { foods := s.foods, score := s.score, combo := s.combo,
            ghostModeTimer := timer0, foodEaten := false, genIdx := 0 }
        let snake2 := if st1.foodEaten = false then snake1.dropLast else snake1
        let snake3 := if cfg.maxLength < snake2.length then snake2.dropLast else snake2
        { snake := snake3, foods := fillFoods gen cfg.maxFoods st1.genIdx st1.foods,
          direction := s.direction, gameRunning := s.gameRunning, score := st1.score,
          combo := st1.combo, ghostModeTimer := st1.ghostModeTimer }

/-- A sample food oracle for concrete runs. -/
def demoGen : Nat → SnakeFood := fun _ => { x := 3, y := 3, type := 0, value := 10 }

/-- A solid-wall configuration on a 10 by 10 grid. -/
def solidCfg : SnakeCfg :=
  { maxX := 10, maxY := 10, wallBehavior := "solid", hasGhostMode := false,
    scoreMultiplier := 1, maxFoods := 1, maxLength := 999 }

/-- A wrapping-wall configuration on a 10 by 10 grid. -/
def wrapCfg : SnakeCfg :=
  { maxX := 10, maxY := 10, wallBehavior := "wrap", hasGhostMode := false,
    scoreMultiplier := 1, maxFoods := 1, maxLength := 999 }

/-- A running state whose head sits on the right edge moving right. -/
def solidEdgeState : SnakeSim :=
  { snake := [{ x := 9, y := 5 }, { x := 8, y := 5 }], foods := [],
    direction := { x := 1, y := 0 }, gameRunning := true, score := 0, combo := 0,
    ghostModeTimer := 0 }

/-- A running state whose head sits on the left edge moving left. -/
def wrapEdgeState : SnakeSim :=
  { snake := [{ x := 0, y := 5 }, { x := 1, y := 5 }], foods := [],
    direction := { x := -1, y := 0 }, gameRunning := true, score := 0, combo := 0,
    ghostModeTimer := 0 }

/-!  Frontend Snake (apps/frontend/games/snake/index.ts): seeded food placement.
CANVAS_WIDTH / GRID_SIZE = CANVAS_HEIGHT / GRID_SIZE = 400 / 20 = 20 cells.  -/

/-- isPositionOnSnake (games/snake/index.ts:192-194). -/
def isPositionOnSnake (snake : List GridPos) (p : GridPos) : Bool :=
  snake.any fun seg => seg.x == p.x && seg.y == p.y

/-- generateFoodPosition (games/snake/index.ts:180-190): a do-while that samples a
cell with x and y each Math.floor(rng() * 20) from the seeded RNG stream until the
cell is not on the snake.  `i` indexes the next RNG call; `fuel` bounds the number
of attempts (the JS loop is unbounded; a run that never finds a free cell is
modeled as none). -/
def generateFoodPosition (rand : Rng) (snake : List GridPos) :
    Nat → Nat → Option GridPos
  | _, 0 => none
  | i, fuel + 1 =>
    let p : GridPos := { x := Rat.floor (rand i * 20), y := Rat.floor (rand (i + 1) * 20) }
    if isPositionOnSnake snake p then generateFoodPosition rand snake (i + 2) fuel
    else some p

/-!  Flappy simulation (apps/frontend/games/flappy/index.ts): the obstacle loop of
update.  Constants: BIRD_X_POSITION = 100, BIRD_RADIUS = 20, PIPE_WIDTH = 80,
PIPE_SPEED = 2.  -/

/-- An obstacle (games/flappy/index.ts:23-28). -/
structure Obstacle where
  x : Rat
  topPipeHeight : Rat
  gap : Rat
  passed : Bool
deriving DecidableEq

/-- Outcome of one pass of the obstacle loop body for a single obstacle: the
updated obstacle (none when it scrolled off screen and was spliced out), whether
the game crashed on it, and whether the score was incremented on its account. -/
structure ObstacleTick where
  obstacle : Option Obstacle
  crashed : Bool
  scored : Bool
deriving DecidableEq

/-- The loop body of FlappyGame.update for one obstacle
(games/flappy/index.ts:295-326): scroll left by PIPE_SPEED * dt/16, splice when off
screen, end the game on AABB overlap of the bird with either pipe rectangle, and
otherwise increment the score exactly when the passed flag is still clear and the
bird is past the pipe, setting the flag (index.ts:322-325). -/
def obstacleStep (birdY dt : Rat) (o : Obstacle) : ObstacleTick :=
  let x1 := o.x - 2 * (dt / 16)
  if x1 + 80 < 0 then { obstacle := none, crashed := false, scored := false }
  else if (100 + 20 > x1 ∧ 100 - 20 < x1 + 80) ∧
      (birdY - 20 < o.topPipeHeight ∨ birdY + 20 > o.topPipeHeight + o.gap) then
    { obstacle := some { o with x := x1 }, crashed := true, scored := false }
  else if o.passed = false ∧ 100 > x1 + 80 then
    { obstacle := some { o with x := x1, passed := true }, crashed := false,
      scored := true }
  else
    { obstacle := some { o with x := x1 }, crashed := false, scored := false }

/-- Iterate one obstacle through successive update ticks, each tick supplying the
bird y position and the frame delta; the run ends early when the obstacle is
spliced out or the game crashes (update sets game over and stops).  The second
component counts the score increments awarded on account of this obstacle. -/
def obstacleRun (o : Obstacle) : List (Rat × Rat) → Option Obstacle × Nat
  | [] => (some o, 0)
  | t :: ts =>
    let r := obstacleStep t.1 t.2 o
    match r.obstacle with
    | none => (none, if r.scored then 1 else 0)
    | some o1 =>
      if r.crashed then (some o1, if r.scored then 1 else 0)
      else
        let rest := obstacleRun o1 ts
        (rest.1, (if r.scored then 1 else 0) + rest.2)

/-- An obstacle already passed by the bird. -/
def passedObs : Obstacle := { x := 0, topPipeHeight := 100, gap := 150, passed := true }

/-!  Breakout simulation (src/unnamed/part_006, class BreakoutGame): paddle bounce
and the brick filter of checkCollisions.  -/

/-- A ball (part_006 interface Ball); the color field is cosmetic and omitted. -/
structure Ball where
  x : Rat
  y : Rat
  dx : Rat
  dy : Rat
  speed : Rat
deriving DecidableEq

/-- The paddle rectangle (part_006:1097-1103); its color field is cosmetic and
omitted. -/
structure Paddle where
  x : Rat
  y : Rat
  width : Rat
  height : Rat
deriving DecidableEq

/-- Paddle collision inside checkCollisions (part_006:1305-1315): when the ball is
within 5 of the paddle band and horizontally over it, send it upward
(dy = -abs dy) and set the horizontal velocity from the hit offset:
dx = speed * (hitPos - 0.5) * 2 with hitPos = (x - paddle.x) / paddle.width. -/
def paddleBounce (paddle : Paddle) (b : Ball) : Ball :=
  if b.y + 5 ≥ paddle.y ∧ b.y - 5 ≤ paddle.y + paddle.height ∧
     b.x ≥ paddle.x ∧ b.x ≤ paddle.x + paddle.width then
    let hitPos := (b.x - paddle.x) / paddle.width
    { b with dy := -|b.dy|, dx := b.speed * (hitPos - 1 / 2) * 2 }
  else b

/-- A brick (part_006 interface Brick): the rectangle fixes the hit box, hits
counts down from maxHits, the color is repainted as damage accrues.  The powerUp
field is omitted: it only spawns a falling pickup on destruction and never feeds
back into hits, combo, score or removal. -/
structure Brick where
  x : Rat
  y : Rat
  width : Rat
  height : Rat
  hits : Int
  maxHits : Int
  color : String
deriving DecidableEq

/-- The brick overlap test of the filter (part_006:1319-1320). -/
def brickHitTest (ball : Ball) (b : Brick) : Bool :=
  decide (ball.x ≥ b.x) && decide (ball.x ≤ b.x + b.width) &&
  decide (ball.y ≥ b.y) && decide (ball.y ≤ b.y + b.height)

/-- Accumulator threading one brick, the combo and the score through the filter. -/
structure BrickHitSt where
  brick : Option Brick
  combo : Nat
  score : Int
deriving DecidableEq

/-- The body of the brick filter in checkCollisions (part_006:1318-1355) restricted
to one brick: on overlap, decrement hits, bump the combo, add
(maxHits - hits + 1) * 10 * combo points — hits and combo already updated, doubled
under the doubleScore modifier — remove the brick once hits reaches zero, and
repaint it secondaryColor below half health.  The dy reflection and the power-up
spawn act on the ball and the power-up list and do not feed back into hits, combo,
score or removal. -/
def brickHitStep (double : Bool) (secondary : String) (ball : Ball)
    (st : BrickHitSt) : BrickHitSt :=
  match st.brick with
  | none => st
  | some b =>
    if brickHitTest ball b then
      let hits1 := b.hits - 1
      let combo1 := st.combo + 1
      let points := (b.maxHits - hits1 + 1) * 10 * (combo1 : Int)
      let score1 := st.score + (if double then points * 2 else points)
      if hits1 ≤ 0 then { brick := none, combo := combo1, score := score1 }
      else if ((hits1 : Rat) / (b.maxHits : Rat)) < 1 / 2 then
        { brick := some { b with hits := hits1, color := secondary },
          combo := combo1, score := score1 }
      else
        { brick := some { b with hits := hits1 }, combo := combo1, score := score1 }
    else st

/-- Iterate the brick filter body over successive colliding ball states, one entry
per update tick in which a ball overlaps this brick. -/
def brickRun (double : Bool) (secondary : String) :
    List Ball → BrickHitSt → BrickHitSt
  | [], st => st
  | ball :: rest, st =>
    brickRun double secondary rest (brickHitStep double secondary ball st)

/-- A paddle for concrete runs. -/
def demoPaddle : Paddle := { x := 0, y := 100, width := 100, height := 12 }

/-- A ball dead center over demoPaddle. -/
def centerBall : Ball := { x := 50, y := 100, dx := 3, dy := 4, speed := 6 }

/-- A two-hit brick. -/
def demoBrick : Brick :=
  { x := 0, y := 0, width := 50, height := 20, hits := 2, maxHits := 2, color := "red" }

/-- A ball inside demoBrick. -/
def demoBall : Ball := { x := 10, y := 10, dx := 1, dy := 1, speed := 6 }

/-!  Helper lemmas shared by the claim theorems.  -/

lemma jsIndex_mem_of_lt {α : Type} {l : List α} {i : Int}
    (h0 : 0 ≤ i) (h1 : i < (l.length : Int)) :
    ∃ a, jsIndex l i = some a ∧ a ∈ l := by
  unfold jsIndex
  rw [if_neg (not_lt.mpr h0)]
  have hlt : i.toNat < l.length := by omega
  exact ⟨l.get ⟨i.toNat, hlt⟩, List.get?_eq_get hlt, List.get_mem _ _ _⟩

lemma head?_cons_dropLast {α : Type} (a b : α) (l : List α) :
    ((a :: b :: l).dropLast).head? = some a := by
  cases l <;> simp [List.dropLast]

lemma head?_pops {α : Type} (P : Prop) [Decidable P] (maxLen : Nat)
    (hml : 1 ≤ maxLen) (a b : α) (l : List α) :
    (if maxLen < (if P then (a :: b :: l).dropLast else a :: b :: l).length
     then (if P then (a :: b :: l).dropLast else a :: b :: l).dropLast
     else (if P then (a :: b :: l).dropLast else a :: b :: l)).head? = some a := by
  have h2 : (if P then (a :: b :: l).dropLast else a :: b :: l)
      = a :: (if P then (b :: l).dropLast else b :: l) := by
    split
    · cases l <;> simp [List.dropLast]
    · rfl
  rw [h2]
  rcases ht : (if P then (b :: l).dropLast else b :: l) with _ | ⟨c, m⟩
  · have hlen : ¬ (maxLen < ([a] : List α).length) := by simp; omega
    rw [if_neg hlen]
    rfl
  · split
    · exact head?_cons_dropLast a c m
    · rfl

lemma ratFloor_nonneg {q : Rat} (h : 0 ≤ q) : 0 ≤ Rat.floor q :=
  Rat.le_floor.mpr (by exact_mod_cast h)

lemma ratFloor_lt_of_lt {q : Rat} {n : Int} (h : q < (n : Rat)) : Rat.floor q < n := by
  by_contra hc
  push_neg at hc
  exact absurd (Rat.le_floor.mp hc) (not_le.mpr h)

lemma obstacleStep_scored_needs_unpassed (y dt : Rat) (o : Obstacle)
    (h : o.passed = true) : (obstacleStep y dt o).scored = false := by
  simp only [obstacleStep]
  split
  · rfl
  · split
    · rfl
    · split
      · next h3 => rw [h] at h3; exact absurd h3.1 (by simp)
      · rfl

lemma obstacleStep_keeps_passed (y dt : Rat) (o o1 : Obstacle)
    (h : o.passed = true) (hm : (obstacleStep y dt o).obstacle = some o1) :
    o1.passed = true := by
  simp only [obstacleStep] at hm
  split at hm
  · exact absurd hm (by simp)
  · split at hm
    · rw [← Option.some.inj hm]; exact h
    · split at hm
      · next h3 => rw [h] at h3; exact absurd h3.1 (by simp)
      · rw [← Option.some.inj hm]; exact h

lemma obstacleStep_scored_passed (y dt : Rat) (o o1 : Obstacle)
    (hs : (obstacleStep y dt o).scored = true)
    (hm : (obstacleStep y dt o).obstacle = some o1) : o1.passed = true := by
  simp only [obstacleStep] at hs hm
  split at hs
  · exact absurd hs (by simp)
  · next h1 =>
    rw [if_neg h1] at hm
    split at hs
    · exact absurd hs (by simp)
    · next h2 =>
      rw [if_neg h2] at hm
      split at hs
      · next h3 =>
        rw [if_pos h3] at hm
        rw [← Option.some.inj hm]
      · exact absurd hs (by simp)

lemma obstacleRun_passed_zero (ticks : List (Rat × Rat)) :
    ∀ o : Obstacle, o.passed = true → (obstacleRun o ticks).2 = 0 := by
  induction ticks with
  | nil => intro o _; rfl
  | cons t ts ih =>
    intro o h
    have hs := obstacleStep_scored_needs_unpassed t.1 t.2 o h
    simp only [obstacleRun]
    cases hm : (obstacleStep t.1 t.2 o).obstacle with
    | none => simp [hs]
    | some o1 =>
      have hp := obstacleStep_keeps_passed t.1 t.2 o o1 h hm
      by_cases hc : (obstacleStep t.1 t.2 o).crashed = true
      · simp [hs, hc]
      · simp [hs, hc, ih o1 hp]

lemma brickHitTest_eq_of_rect (ball : Ball) (a b : Brick)
    (hx : a.x = b.x) (hy : a.y = b.y) (hw : a.width = b.width)
    (hh : a.height = b.height) :
    brickHitTest ball a = brickHitTest ball b := by
  simp [brickHitTest, hx, hy, hw, hh]

lemma brickHitStep_spec (double : Bool) (secondary : String) (ball : Ball)
    (b : Brick) (combo : Nat) (score : Int)
    (hhit : brickHitTest ball b = true) (hle : b.hits ≤ b.maxHits) :
    score < (brickHitStep double secondary ball ⟨some b, combo, score⟩).score ∧
    (b.hits ≤ 1 →
      (brickHitStep double secondary ball ⟨some b, combo, score⟩).brick = none) ∧
    (2 ≤ b.hits → ∃ b1,
      (brickHitStep double secondary ball ⟨some b, combo, score⟩).brick = some b1 ∧
      b1.hits = b.hits - 1 ∧ b1.maxHits = b.maxHits ∧ b1.x = b.x ∧ b1.y = b.y ∧
      b1.width = b.width ∧ b1.height = b.height) := by
  have hpts : 0 < (if double
      then (b.maxHits - (b.hits - 1) + 1) * 10 * ((combo + 1 : Nat) : Int) * 2
      else (b.maxHits - (b.hits - 1) + 1) * 10 * ((combo + 1 : Nat) : Int)) := by
    have h1 : 0 < b.maxHits - (b.hits - 1) + 1 := by omega
    have h2 : (0 : Int) < ((combo + 1 : Nat) : Int) := by positivity
    have hbase : 0 < (b.maxHits - (b.hits - 1) + 1) * 10 * ((combo + 1 : Nat) : Int) :=
      mul_pos (mul_pos h1 (by norm_num)) h2
    cases double
    · simpa using hbase
    · simpa using mul_pos hbase (by norm_num : (0 : Int) < 2)
  simp only [brickHitStep, hhit, eq_self_iff_true, if_true]
  refine ⟨?_, ?_, ?_⟩
  · split
    · exact lt_add_of_pos_right score hpts
    · split
      · exact lt_add_of_pos_right score hpts
      · exact lt_add_of_pos_right score hpts
  · intro hone
    rw [if_pos (show b.hits - 1 ≤ 0 by omega)]
  · intro htwo
    rw [if_neg (show ¬ (b.hits - 1 ≤ 0) by omega)]
    split
    · exact ⟨_, rfl, rfl, rfl, rfl, rfl, rfl, rfl⟩
    · exact ⟨_, rfl, rfl, rfl, rfl, rfl, rfl, rfl⟩

lemma brickRun_none (double : Bool) (secondary : String) (balls : List Ball) :
    ∀ st : BrickHitSt, st.brick = none →
      (brickRun double secondary balls st).brick = none := by
  induction balls with
  | nil => intro st h; exact h
  | cons ball rest ih =>
    intro st h
    have hstep : brickHitStep double secondary ball st = st := by
      simp only [brickHitStep, h]
    simp only [brickRun, hstep]
    exact ih st h

lemma brickRun_spec (double : Bool) (secondary : String) (balls : List Ball) :
    ∀ (b : Brick) (combo : Nat) (score : Int),
    1 ≤ b.hits → b.hits ≤ b.maxHits →
    (∀ ball ∈ balls, brickHitTest ball b = true) →
    (((balls.length : Int) < b.hits →
      ∃ b1, (brickRun double secondary balls ⟨some b, combo, score⟩).brick = some b1 ∧
        b1.hits = b.hits - balls.length) ∧
     (b.hits ≤ (balls.length : Int) →
      (brickRun double secondary balls ⟨some b, combo, score⟩).brick = none)) := by
  induction balls with
  | nil =>
    intro b combo score h1 hle hcol
    constructor
    · intro _; exact ⟨b, rfl, by simp⟩
    · intro hge; exfalso; simp at hge; omega
  | cons ball rest ih =>
    intro b combo score h1 hle hcol
    have hhit : brickHitTest ball b = true := hcol ball (by simp)
    obtain ⟨hsc, hrem, hsur⟩ := brickHitStep_spec double secondary ball b combo score hhit hle
    simp only [brickRun]
    by_cases hone : b.hits ≤ 1
    · constructor
      · intro hlt; exfalso; simp only [List.length_cons] at hlt; push_cast at hlt; omega
      · intro _
        exact brickRun_none double secondary rest _ (hrem hone)
    · push_neg at hone
      obtain ⟨b1, hb1, hh, hm, hxx, hyy, hww, hhh⟩ := hsur (by omega)
      have hcol1 : ∀ bl ∈ rest, brickHitTest bl b1 = true := by
        intro bl hbl
        rw [brickHitTest_eq_of_rect bl b1 b hxx hyy hww hhh]
        exact hcol bl (by simp [hbl])
      have hst : brickHitStep double secondary ball ⟨some b, combo, score⟩ =
          ⟨some b1, (brickHitStep double secondary ball ⟨some b, combo, score⟩).combo,
           (brickHitStep double secondary ball ⟨some b, combo, score⟩).score⟩ := by
        rw [← hb1]
      rw [hst]
      have hres := ih b1 (brickHitStep double secondary ball ⟨some b, combo, score⟩).combo
        (brickHitStep double secondary ball ⟨some b, combo, score⟩).score
        (by omega) (by omega) hcol1
      constructor
      · intro hlt
        simp only [List.length_cons] at hlt
        obtain ⟨b2, hb2, hh2⟩ := hres.1 (by push_cast at hlt ⊢; omega)
        refine ⟨b2, hb2, ?_⟩
        simp only [List.length_cons]
        push_cast
        omega
      · intro hge
        simp only [List.length_cons] at hge
        exact hres.2 (by push_cast at hge ⊢; omega)

/-- C1: for the gameId "snake" (deterministic-per-id policy), generateVariation is a
pure function of the game id: two calls under arbitrary ambient environments (wall
clock, Math.random) return equal bundles, for any fixed seedrandom implementation;
neither Date.now() nor Math.random() is consulted on the snake path. -/
theorem c1_snake_variation_deterministic (rt : JsRuntime) (e₁ e₂ : JsEnv) :
    generateVariation rt e₁ "snake" = generateVariation rt e₂ "snake" := rfl

/-- C9: every bundle returned by generateVariation("snake") has its speed drawn from
the nine-element speedValues array, not merely from the schema interval [50, 300];
this holds for any seedrandom implementation meeting the [0, 1) output contract. -/
theorem c9_snake_speed_discrete (rt : JsRuntime) (env : JsEnv) (hr : RngRange rt)
    (v : RawSnakeVariation)
    (h : generateVariation rt env "snake" = GenResult.snakeBundle v) :
    ∃ s, v.speed = some s ∧ s ∈ snakeSpeedValues := by
  have hgen : generateVariation rt env "snake" =
      snakeVariationOf rt (rt.ratToString (rt.seedrandom "snake" 0)) := rfl
  rw [hgen] at h
  obtain ⟨h0, h1⟩ := hr (rt.ratToString (rt.seedrandom "snake" 0)) 0
  simp only [snakeVariationOf] at h
  split at h
  · cases h
    refine jsIndex_mem_of_lt (ratFloor_nonneg ?_) ?_
    · exact mul_nonneg h0 (by norm_num)
    · refine lt_of_lt_of_le (ratFloor_lt_of_lt (n := 9) ?_) (by norm_num [snakeSpeedValues])
      calc rt.seedrandom (rt.ratToString (rt.seedrandom "snake" 0)) 0
            * ((snakeSpeedValues.length : Nat) : Rat)
          < 1 * ((snakeSpeedValues.length : Nat) : Rat) := by
            refine mul_lt_mul_of_pos_right h1 (by norm_num [snakeSpeedValues])
        _ = ((9 : Int) : Rat) := by norm_num [snakeSpeedValues]
  · exact absurd h (by simp)

/-- C9 witness: a concrete runtime whose PRNG constantly returns 1/2 yields the
snake bundle with speed 150, a member of speedValues. -/
theorem c9_snake_speed_discrete_witness :
    ∃ s, (RawSnakeVariation.mk "0.5" (some 150) (some "yellow") (some "cyan")).speed
        = some s ∧ s ∈ snakeSpeedValues :=
  c9_snake_speed_discrete demoRt demoEnv
    (fun _ _ => ⟨show (0 : Rat) ≤ 1 / 2 by with_unfolding_all decide,
                 show (1 : Rat) / 2 < 1 by with_unfolding_all decide⟩)
    (RawSnakeVariation.mk "0.5" (some 150) (some "yellow") (some "cyan"))
    (by with_unfolding_all decide)

/-- C7 (amended): generateVariation validates the assembled bundle against its zod
schema before returning it — any bundle it returns passes its schema — and a
validation failure produces an explicit error-object result rather than a raised
exception or a corrected/substitute bundle: no execution path constructs a thrown
exception. -/
theorem c7_schema_checked_and_no_throw (rt : JsRuntime) (env : JsEnv) (gameId : String) :
    (∀ v, generateVariation rt env gameId = GenResult.snakeBundle v →
        snakeSchemaCheck v = true) ∧
    (∀ v, generateVariation rt env gameId = GenResult.flappyBundle v →
        flappySchemaCheck v = true) ∧
    (∀ msg, generateVariation rt env gameId ≠ GenResult.thrown msg) := by
  refine ⟨fun v h => ?_, fun v h => ?_, fun msg h => ?_⟩ <;>
  · simp only [generateVariation, snakeVariationOf, flappyVariationOf] at h
    repeat' split at h
    all_goals
      first
        | (cases h; assumption)
        | exact absurd h (by simp)

/-- C7 witness: the theorem applied to the concrete demo runtime on the snake path:
the returned bundle passes the snake schema. -/
theorem c7_schema_checked_witness :
    snakeSchemaCheck (RawSnakeVariation.mk "0.5" (some 150) (some "yellow") (some "cyan"))
      = true :=
  (c7_schema_checked_and_no_throw demoRt demoEnv "snake").1
    (RawSnakeVariation.mk "0.5" (some 150) (some "yellow") (some "cyan"))
    (by with_unfolding_all decide)

/-- C7 counterexample: with a PRNG stepping outside [0, 1) the snake array reads come
back undefined and safeParse fails, and the call returns the error object (it does
not raise): the claim that a validation failure makes generateVariation raise is
false on this code, which reports the failure as a returned { error } value. -/
theorem c7_counterexample :
    generateVariation badRt demoEnv "snake" =
      GenResult.errorResult "Failed to generate valid Snake variation." := by
  with_unfolding_all decide

/-- C8 (amended): a nonempty gameId whose lowercasing is not snake, breakout or
flappy is answered with status 200 — not a 4xx — and a JSON body of the shape
{ error: string }. -/
theorem c8_unknown_id_responds_200_error (rt : JsRuntime) (env : JsEnv) (id : String)
    (hne : id ≠ "")
    (hid : jsToLower id ∉ (["snake", "breakout", "flappy"] : List String)) :
    variationRoute rt env id =
      { status := 200, body := GenResult.errorResult ("Unknown gameId: " ++ id) } := by
  have hs : ¬ jsToLower id = "snake" := fun hc => hid (by rw [hc]; simp)
  have hf : ¬ jsToLower id = "flappy" := fun hc => hid (by rw [hc]; simp)
  have hgen : generateVariation rt env id = .errorResult ("Unknown gameId: " ++ id) := by
    simp only [generateVariation, if_neg hs, if_neg hf]
  unfold variationRoute
  rw [if_neg hne, hgen]

/-- C8 witness: the amended claim evaluated at the unknown id "pong". -/
theorem c8_unknown_id_witness :
    variationRoute demoRt demoEnv "pong" =
      { status := 200, body := GenResult.errorResult "Unknown gameId: pong" } :=
  c8_unknown_id_responds_200_error demoRt demoEnv "pong" (by decide) (by decide)

/-- C8 counterexample: the request GET /api/variation/tetris is answered with status
200 (not a 4xx) carrying the { error } body, refuting the claimed 4xx status. -/
theorem c8_counterexample :
    variationRoute demoRt demoEnv "tetris" =
      { status := 200, body := GenResult.errorResult "Unknown gameId: tetris" } := by
  with_unfolding_all decide

/-- C2: with wallBehavior other than wrap, an update step whose moved head leaves
the grid [0, maxX) x [0, maxY) calls gameOver(): the phase after that update is
GameOver. -/
theorem c2_snake_solid_wall_kills (cfg : SnakeCfg) (gen : Nat → SnakeFood)
    (s : SnakeSim) (h0 : GridPos) (tl : List GridPos)
    (hrun : s.gameRunning = true) (hsnake : s.snake = h0 :: tl)
    (hwall : cfg.wallBehavior ≠ "wrap")
    (hout : h0.x + s.direction.x < 0 ∨ cfg.maxX ≤ h0.x + s.direction.x ∨
            h0.y + s.direction.y < 0 ∨ cfg.maxY ≤ h0.y + s.direction.y) :
    (snakeUpdate cfg gen s).phase = Phase.GameOver := by
  simp only [snakeUpdate, hrun, hsnake, if_neg hwall]
  rw [if_pos hout]
  simp [SnakeSim.phase]

/-- C2 witness: a head at x = 9 moving right on a 10-wide solid-wall grid dies. -/
theorem c2_snake_solid_wall_kills_witness :
    (snakeUpdate solidCfg demoGen solidEdgeState).phase = Phase.GameOver :=
  c2_snake_solid_wall_kills solidCfg demoGen solidEdgeState
    { x := 9, y := 5 } [{ x := 8, y := 5 }] rfl rfl (by decide) (by decide)

/-- C6: with wallBehavior wrap, a head exiting the left edge reappears at
x = maxX - 1 on the same row, and when the wrapped cell is not occupied by the
body the game stays Running: the wall crossing itself does not end the game. -/
theorem c6_snake_wrap_left_edge (cfg : SnakeCfg) (gen : Nat → SnakeFood)
    (s : SnakeSim) (h0 : GridPos) (tl : List GridPos)
    (hrun : s.gameRunning = true) (hsnake : s.snake = h0 :: tl)
    (hwall : cfg.wallBehavior = "wrap")
    (hdir : s.direction = { x := -1, y := 0 })
    (hx : h0.x = 0) (hy0 : 0 ≤ h0.y) (hy1 : h0.y < cfg.maxY)
    (hmaxlen : 1 ≤ cfg.maxLength)
    (hfree : s.snake.any
      (fun seg => seg.x == cfg.maxX - 1 && seg.y == h0.y) = false) :
    (snakeUpdate cfg gen s).snake.head? = some { x := cfg.maxX - 1, y := h0.y } ∧
    (snakeUpdate cfg gen s).phase = Phase.Running := by
  rw [hsnake] at hfree
  have hdx : s.direction.x = -1 := by rw [hdir]
  have hdy : s.direction.y = 0 := by rw [hdir]
  have hxwrap : h0.x + s.direction.x < 0 := by omega
  have hxcap : ¬ (cfg.maxX ≤ cfg.maxX - 1) := by omega
  have hynn : ¬ (h0.y + s.direction.y < 0) := by omega
  have hycap : ¬ (cfg.maxY ≤ h0.y + s.direction.y) := by omega
  have hynn2 : ¬ (h0.y < 0) := by omega
  have hycap2 : ¬ (cfg.maxY ≤ h0.y) := by omega
  have hyy : h0.y + s.direction.y = h0.y := by omega
  simp only [snakeUpdate, hrun, hsnake, if_pos hwall, if_pos hxwrap, if_neg hxcap,
    hyy, if_neg hynn, if_neg hycap, if_neg hynn2, if_neg hycap2]
  have hguard : ¬ (((if cfg.hasGhostMode = true ∧ 0 < s.ghostModeTimer
        then s.ghostModeTimer - 1 else s.ghostModeTimer) = 0) ∧
      ((h0 :: tl).any fun seg => seg.x == cfg.maxX - 1 && seg.y == h0.y) = true) := by
    rintro h2
    exact absurd h2.2 (by simp [hfree])
  rw [if_neg hguard]
  constructor
  · exact head?_pops _ cfg.maxLength hmaxlen _ _ _
  · simp [SnakeSim.phase]

/-- C6 witness: on a 10-wide wrapping grid, a head at x = 0 moving left reappears
at x = 9 on row 5 with the game still Running. -/
theorem c6_snake_wrap_left_edge_witness :
    (snakeUpdate wrapCfg demoGen wrapEdgeState).snake.head? = some { x := 9, y := 5 } ∧
    (snakeUpdate wrapCfg demoGen wrapEdgeState).phase = Phase.Running :=
  c6_snake_wrap_left_edge wrapCfg demoGen wrapEdgeState
    { x := 0, y := 5 } [{ x := 1, y := 5 }] rfl rfl rfl rfl rfl
    (by decide) (by decide) (by decide) (by decide)

/-- C10: every position generateFoodPosition returns lies inside the 20 by 20 grid
and does not coincide with any cell of the snake, for any rng meeting the [0, 1)
output contract; resets and food respawns call it with the current snake, so food
never overlaps the snake there. -/
theorem c10_food_in_grid_not_on_snake (rand : Rng) (snake : List GridPos)
    (i fuel : Nat) (p : GridPos)
    (hr : ∀ n, 0 ≤ rand n ∧ rand n < 1)
    (h : generateFoodPosition rand snake i fuel = some p) :
    (0 ≤ p.x ∧ p.x < 20 ∧ 0 ≤ p.y ∧ p.y < 20) ∧
    isPositionOnSnake snake p = false := by
  induction fuel generalizing i with
  | zero => exact absurd h (by simp [generateFoodPosition])
  | succ n ih =>
    simp only [generateFoodPosition] at h
    split at h
    · exact ih (i + 2) h
    · next hnot =>
      cases h
      have hb : ∀ m : Nat, (0 : Int) ≤ Rat.floor (rand m * 20) ∧
          Rat.floor (rand m * 20) < 20 := by
        intro m
        obtain ⟨h0, h1⟩ := hr m
        refine ⟨ratFloor_nonneg (mul_nonneg h0 (by norm_num)), ?_⟩
        exact ratFloor_lt_of_lt (show rand m * 20 < ((20 : Int) : Rat) by
          push_cast; nlinarith)
      exact ⟨⟨(hb i).1, (hb i).2, (hb (i + 1)).1, (hb (i + 1)).2⟩, by simpa using hnot⟩

/-- C10 witness: with the constant 1/2 stream the first attempt yields cell
(10, 10), inside the grid and off the one-cell snake. -/
theorem c10_food_in_grid_witness :
    (0 ≤ (GridPos.mk 10 10).x ∧ (GridPos.mk 10 10).x < 20 ∧
     0 ≤ (GridPos.mk 10 10).y ∧ (GridPos.mk 10 10).y < 20) ∧
    isPositionOnSnake [GridPos.mk 0 0] (GridPos.mk 10 10) = false :=
  c10_food_in_grid_not_on_snake (fun _ => 1 / 2) [GridPos.mk 0 0] 0 1 (GridPos.mk 10 10)
    (fun _ => ⟨show (0 : Rat) ≤ 1 / 2 by with_unfolding_all decide,
               show (1 : Rat) / 2 < 1 by with_unfolding_all decide⟩)
    (by with_unfolding_all decide)

/-- C3: across any sequence of update ticks, a single obstacle accounts for at most
one score increment, and from the moment its passed flag is set no later update
increments the score on its account. -/
theorem c3_flappy_obstacle_scores_once (o : Obstacle) (ticks : List (Rat × Rat)) :
    (obstacleRun o ticks).2 ≤ 1 ∧
    (o.passed = true → (obstacleRun o ticks).2 = 0) := by
  refine ⟨?_, obstacleRun_passed_zero ticks o⟩
  induction ticks generalizing o with
  | nil => simp [obstacleRun]
  | cons t ts ih =>
    simp only [obstacleRun]
    cases hm : (obstacleStep t.1 t.2 o).obstacle with
    | none => cases hsc : (obstacleStep t.1 t.2 o).scored <;> simp [hsc]
    | some o1 =>
      by_cases hc : (obstacleStep t.1 t.2 o).crashed = true
      · cases hsc : (obstacleStep t.1 t.2 o).scored <;> simp [hsc, hc]
      · cases hsc : (obstacleStep t.1 t.2 o).scored with
        | false => simpa [hc, hsc] using ih o1
        | true =>
          have hp := obstacleStep_scored_passed t.1 t.2 o o1 hsc hm
          simp [hc, hsc, obstacleRun_passed_zero ts o1 hp]

/-- C3 witness: an already-passed obstacle earns no score on a further tick. -/
theorem c3_flappy_obstacle_scores_once_witness :
    (obstacleRun passedObs [(300, 16)]).2 = 0 :=
  (c3_flappy_obstacle_scores_once passedObs [(300, 16)]).2 rfl

/-- C4: a brick with hits = maxHits = N survives any k < N colliding ball events
with hits N - k remaining, is removed by the N-th (and none is left thereafter),
and every single hit on a live brick strictly increases the score, destroying hit
or not. -/
theorem c4_breakout_brick_exact_hits (double : Bool) (secondary : String)
    (balls : List Ball) (b : Brick) (N : Nat) (combo : Nat) (score : Int)
    (hN : 1 ≤ N) (hhits : b.hits = (N : Int)) (hmax : b.maxHits = (N : Int))
    (hcol : ∀ ball ∈ balls, brickHitTest ball b = true) :
    ((balls.length < N →
      ∃ b1, (brickRun double secondary balls ⟨some b, combo, score⟩).brick = some b1 ∧
        b1.hits = (N : Int) - balls.length) ∧
     (N ≤ balls.length →
      (brickRun double secondary balls ⟨some b, combo, score⟩).brick = none)) ∧
    (∀ (ball : Ball) (st : BrickHitSt) (bk : Brick), st.brick = some bk →
      bk.hits ≤ bk.maxHits → brickHitTest ball bk = true →
      st.score < (brickHitStep double secondary ball st).score) := by
  constructor
  · have hmain := brickRun_spec double secondary balls b combo score
      (by omega) (by omega) hcol
    constructor
    · intro hlt
      obtain ⟨b1, hb1, hh⟩ := hmain.1 (by omega)
      exact ⟨b1, hb1, by rw [hh, hhits]⟩
    · intro hge
      exact hmain.2 (by omega)
  · intro ball st bk hbk hle hhit
    have hspec := brickHitStep_spec double secondary ball bk st.combo st.score hhit hle
    have hst : st = ⟨some bk, st.combo, st.score⟩ := by rw [← hbk]
    rw [hst]
    exact hspec.1

/-- C4 witness: a two-hit brick is gone after two colliding ball events. -/
theorem c4_breakout_brick_exact_hits_witness :
    (brickRun false "blue" [demoBall, demoBall] ⟨some demoBrick, 0, 0⟩).brick = none :=
  ((c4_breakout_brick_exact_hits false "blue" [demoBall, demoBall] demoBrick 2 0 0
    (by decide) rfl rfl
    (by intro ball hb
        simp only [List.mem_cons, List.mem_singleton] at hb
        rcases hb with rfl | rfl | h
        · with_unfolding_all decide
        · with_unfolding_all decide
        · cases h)).1).2 (by decide)

/-- C5: a ball in paddle contact hitting the exact horizontal center of the paddle
rebounds with zero horizontal velocity, and one hitting the paddle left edge
rebounds with negative (leftward) horizontal velocity. -/
theorem c5_paddle_bounce_center_and_edge (p : Paddle) (b : Ball)
    (hy1 : b.y + 5 ≥ p.y) (hy2 : b.y - 5 ≤ p.y + p.height)
    (hw : 0 < p.width) (hs : 0 < b.speed) :
    (b.x = p.x + p.width / 2 → (paddleBounce p b).dx = 0) ∧
    (b.x = p.x → (paddleBounce p b).dx < 0) := by
  have hw0 : p.width ≠ 0 := ne_of_gt hw
  constructor
  · intro hx
    have hc : b.y + 5 ≥ p.y ∧ b.y - 5 ≤ p.y + p.height ∧
        b.x ≥ p.x ∧ b.x ≤ p.x + p.width :=
      ⟨hy1, hy2, by rw [hx]; linarith, by rw [hx]; linarith⟩
    simp only [paddleBounce, if_pos hc]
    show b.speed * ((b.x - p.x) / p.width - 1 / 2) * 2 = 0
    rw [hx]
    field_simp
    ring
  · intro hx
    have hc : b.y + 5 ≥ p.y ∧ b.y - 5 ≤ p.y + p.height ∧
        b.x ≥ p.x ∧ b.x ≤ p.x + p.width :=
      ⟨hy1, hy2, le_of_eq hx.symm, by rw [hx]; linarith⟩
    simp only [paddleBounce, if_pos hc]
    show b.speed * ((b.x - p.x) / p.width - 1 / 2) * 2 < 0
    rw [hx]
    have hE : b.speed * ((p.x - p.x) / p.width - 1 / 2) * 2 = -b.speed := by
      rw [sub_self, zero_div]
      ring
    rw [hE]
    linarith

/-- C5 witness: the center-hit conclusion evaluated on a concrete paddle and
ball dead over its center. -/
theorem c5_paddle_bounce_witness : (paddleBounce demoPaddle centerBall).dx = 0 :=
  (c5_paddle_bounce_center_and_edge demoPaddle centerBall
    (by with_unfolding_all decide) (by with_unfolding_all decide)
    (by with_unfolding_all decide) (by with_unfolding_all decide)).1
    (by with_unfolding_all decide)

end Arcade
